import Mathlib

/-!
Verification development for the BizForge backend AI-service module
(`backend/ai_service.py`).  The Python code is shallowly embedded:

* `JsonValue` models the JSON values produced by the Python `json.loads`
  (numbers are kept as their source lexeme, since no operation in the
  module inspects a numeric value; Python dict semantics — last
  duplicate key wins, insertion order kept — are reproduced by
  `objInsert`).
* `json_loads` models `json.loads` (strict JSON grammar plus the
  CPython extensions `NaN`/`Infinity`/`-Infinity`); it returns `none`
  where Python raises `json.JSONDecodeError`.
* `findJsonSpan` models `re.search(r'\[.*\]|\{.*\}', text, re.DOTALL)`:
  the leftmost start position at which one of the two alternatives
  matches, each alternative greedily extending to the LAST closer of
  its own bracket kind.
* `extract_json` models `AIService._extract_json`.
* Provider behaviour (Gemini, Groq, Hugging Face image models, the
  Pollinations keyless endpoint) is abstracted into an `Env` record of
  oracles; each modelled operation also returns the list of external
  `Event`s it performed, so claims about "no network call" and "no
  file written" are statements about the trace.
-/

/-- JSON values as returned by the Python `json.loads`.  Numeric literals are
kept as their lexeme (the module never does arithmetic on them); objects are
insertion-ordered key/value lists with unique keys, as Python dicts. -/
inductive JsonValue where
  | null : JsonValue
  | bool : Bool → JsonValue
  | num : String → JsonValue
  | str : String → JsonValue
  | arr : List JsonValue → JsonValue
  | obj : List (String × JsonValue) → JsonValue
deriving Repr

/-- JSON whitespace skipped by `json.loads` (space, tab, newline, CR). -/
def skipWs : List Char → List Char
  | c :: rest =>
    if c = ' ' ∨ c = '\t' ∨ c = '\n' ∨ c = '\r' then skipWs rest else c :: rest
  | [] => []

/-- Expect a literal keyword tail (e.g. `"ull"` after the initial `n`). -/
def expectChars : List Char → List Char → Option (List Char)
  | [], l => some l
  | e :: es, c :: rest => if c = e then expectChars es rest else none
  | _ :: _, [] => none

/-- Dict insertion with Python semantics: a duplicate key keeps its first
position but takes the last value. -/
def objInsert (kvs : List (String × JsonValue)) (k : String) (v : JsonValue) :
    List (String × JsonValue) :=
  if kvs.any (fun p => p.1 = k) then
    kvs.map (fun p => if p.1 = k then (k, v) else p)
  else kvs ++ [(k, v)]

/-- Hexadecimal digit test for `\uXXXX` escapes. -/
def isHexChar (c : Char) : Bool :=
  c.isDigit ∨ ('a' ≤ c ∧ c ≤ 'f') ∨ ('A' ≤ c ∧ c ≤ 'F')

/-- Body of a JSON string after the opening quote: returns the decoded
characters and the input remaining after the closing quote.  Unescaped
control characters are rejected, as in strict-mode `json.loads`. -/
def parseStringBody : Nat → List Char → Option (List Char × List Char)
  | 0, _ => none
  | _, [] => none
  | fuel + 1, c :: rest =>
    if c = '"' then some ([], rest)
    else if c = '\\' then
      match rest with
      | [] => none
      | e :: rest2 =>
        if e = '"' ∨ e = '\\' ∨ e = '/' then
          match parseStringBody fuel rest2 with
          | some (cs, l) => some (e :: cs, l)
          | none => none
        else if e = 'n' ∨ e = 't' ∨ e = 'r' ∨ e = 'b' ∨ e = 'f' then
          let d : Char :=
            if e = 'n' then '\n' else if e = 't' then '\t'
            else if e = 'r' then '\r' else if e = 'b' then Char.ofNat 8
            else Char.ofNat 12
          match parseStringBody fuel rest2 with
          | some (cs, l) => some (d :: cs, l)
          | none => none
        else if e = 'u' then
          match rest2 with
          | h1 :: h2 :: h3 :: h4 :: rest3 =>
            if isHexChar h1 ∧ isHexChar h2 ∧ isHexChar h3 ∧ isHexChar h4 then
              let hv := fun (c : Char) =>
                if c.isDigit then c.toNat - 48
                else if 'a' ≤ c ∧ c ≤ 'f' then c.toNat - 87 else c.toNat - 55
              let n := ((hv h1 * 16 + hv h2) * 16 + hv h3) * 16 + hv h4
              match parseStringBody fuel rest3 with
              | some (cs, l) => some (Char.ofNat n :: cs, l)
              | none => none
            else none
          | _ => none
        else none
    else if c.toNat < 32 then none
    else
      match parseStringBody fuel rest with
      | some (cs, l) => some (c :: cs, l)
      | none => none

/-- Digits of a JSON integer part: `0` alone, or a nonzero digit followed by
digits (the `(?:0|[1-9]\d*)` of the CPython NUMBER_RE). -/
def parseIntPart : List Char → Option (List Char × List Char)
  | [] => none
  | c :: rest =>
    if c = '0' then some ([c], rest)
    else if c.isDigit then
      some (c :: rest.takeWhile Char.isDigit, rest.dropWhile Char.isDigit)
    else none

/-- Optional fraction part `(\.\d+)?`: when absent (no digit after the dot),
nothing is consumed — the dot is left for the enclosing structure, exactly as
an unmatched optional regex group. -/
def parseFracPart (l : List Char) : List Char × List Char :=
  match l with
  | '.' :: d :: rest =>
    if d.isDigit then
      ('.' :: d :: rest.takeWhile Char.isDigit, rest.dropWhile Char.isDigit)
    else ([], l)
  | _ => ([], l)

/-- Optional exponent part `([eE][-+]?\d+)?`, with the same
unmatched-group-consumes-nothing behaviour as `parseFracPart`. -/
def parseExpPart (l : List Char) : List Char × List Char :=
  match l with
  | e :: rest =>
    if e = 'e' ∨ e = 'E' then
      match rest with
      | s :: d :: rest2 =>
        if (s = '+' ∨ s = '-') ∧ d.isDigit then
          (e :: s :: d :: rest2.takeWhile Char.isDigit,
           rest2.dropWhile Char.isDigit)
        else if s.isDigit then
          (e :: s :: rest.tail.takeWhile Char.isDigit,
           rest.tail.dropWhile Char.isDigit)
        else ([], l)
      | [s] => if s.isDigit then ([e, s], []) else ([], l)
      | [] => ([], l)
    else ([], l)
  | [] => ([], l)

/-- A JSON number token (after an optional leading minus already seen by the
caller), returned as its lexeme. -/
def parseNumberTail (neg : Bool) (l : List Char) : Option (JsonValue × List Char) :=
  match parseIntPart l with
  | none => none
  | some (ip, rest1) =>
    let (fp, rest2) := parseFracPart rest1
    let (ep, rest3) := parseExpPart rest2
    some (JsonValue.num (String.mk ((if neg then ['-'] else []) ++ ip ++ fp ++ ep)), rest3)

mutual

/-- One JSON value (leading whitespace allowed), CPython `json.loads`
grammar including the `NaN` / `Infinity` / `-Infinity` extensions. -/
def parseValue : Nat → List Char → Option (JsonValue × List Char)
  | 0, _ => none
  | fuel + 1, l =>
    match skipWs l with
    | [] => none
    | c :: rest =>
      if c = 'n' then
        match expectChars ['u', 'l', 'l'] rest with
        | some rest2 => some (JsonValue.null, rest2)
        | none => none
      else if c = 't' then
        match expectChars ['r', 'u', 'e'] rest with
        | some rest2 => some (JsonValue.bool true, rest2)
        | none => none
      else if c = 'f' then
        match expectChars ['a', 'l', 's', 'e'] rest with
        | some rest2 => some (JsonValue.bool false, rest2)
        | none => none
      else if c = 'N' then
        match expectChars ['a', 'N'] rest with
        | some rest2 => some (JsonValue.num "NaN", rest2)
        | none => none
      else if c = 'I' then
        match expectChars ['n', 'f', 'i', 'n', 'i', 't', 'y'] rest with
        | some rest2 => some (JsonValue.num "Infinity", rest2)
        | none => none
      else if c = '"' then
        match parseStringBody (rest.length + 1) rest with
        | some (cs, rest2) => some (JsonValue.str (String.mk cs), rest2)
        | none => none
      else if c = '[' then
        match skipWs rest with
        | ']' :: rest2 => some (JsonValue.arr [], rest2)
        | l2 =>
          match parseElems fuel l2 with
          | some (vs, rest2) => some (JsonValue.arr vs, rest2)
          | none => none
      else if c = '{' then
        match skipWs rest with
        | '}' :: rest2 => some (JsonValue.obj [], rest2)
        | l2 =>
          match parseMembers fuel l2 with
          | some (kvs, rest2) =>
            some (JsonValue.obj (kvs.foldl (fun acc p => objInsert acc p.1 p.2) []), rest2)
          | none => none
      else if c = '-' then
        match rest with
        | 'I' :: rest2 =>
          match expectChars ['n', 'f', 'i', 'n', 'i', 't', 'y'] rest2 with
          | some rest3 => some (JsonValue.num "-Infinity", rest3)
          | none => none
        | _ => parseNumberTail true rest
      else parseNumberTail false (c :: rest)

/-- Comma-separated array elements up to and including the closing `]`. -/
def parseElems : Nat → List Char → Option (List JsonValue × List Char)
  | 0, _ => none
  | fuel + 1, l =>
    match parseValue fuel l with
    | none => none
    | some (v, rest) =>
      match skipWs rest with
      | ',' :: rest2 =>
        match parseElems fuel rest2 with
        | some (vs, rest3) => some (v :: vs, rest3)
        | none => none
      | ']' :: rest2 => some ([v], rest2)
      | _ => none

/-- Comma-separated object members up to and including the closing `}`,
in source order (duplicates folded later by `objInsert`). -/
def parseMembers : Nat → List Char → Option (List (String × JsonValue) × List Char)
  | 0, _ => none
  | fuel + 1, l =>
    match skipWs l with
    | '"' :: rest =>
      match parseStringBody (rest.length + 1) rest with
      | none => none
      | some (ks, rest2) =>
        match skipWs rest2 with
        | ':' :: rest3 =>
          match parseValue fuel rest3 with
          | none => none
          | some (v, rest4) =>
            match skipWs rest4 with
            | ',' :: rest5 =>
              match parseMembers fuel rest5 with
              | some (kvs, rest6) => some ((String.mk ks, v) :: kvs, rest6)
              | none => none
            | '}' :: rest5 => some ([(String.mk ks, v)], rest5)
            | _ => none
        | _ => none
    | _ => none

end

/-- Model of the Python `json.loads`: parse one value, then require only
whitespace to remain; `none` where Python raises `JSONDecodeError`. -/
def json_loads (s : String) : Option JsonValue :=
  match parseValue (2 * s.toList.length + 2) s.toList with
  | some (v, rest) => if skipWs rest = [] then some v else none
  | none => none

/-- The prefix of `l` up to and including the LAST occurrence of `c`
(`none` when `c` does not occur): the greedy `.*` before a final literal. -/
def upToLast (c : Char) (l : List Char) : Option (List Char) :=
  match l.reverse.dropWhile (fun x => x ≠ c) with
  | [] => none
  | r => some r.reverse

/-- Model of `re.search(r'\[.*\]|\{.*\}', text, re.DOTALL)`: the leftmost
position whose character is `[` with a later `]` (span to the last `]`), or
`{` with a later `}` (span to the last `}`). -/
def findJsonSpan : List Char → Option (List Char)
  | [] => none
  | c :: rest =>
    if c = '[' then
      match upToLast ']' rest with
      | some pre => some ('[' :: pre)
      | none => findJsonSpan rest
    else if c = '{' then
      match upToLast '}' rest with
      | some pre => some ('{' :: pre)
      | none => findJsonSpan rest
    else findJsonSpan rest

/-- Model of `AIService._extract_json`: direct `json.loads`, else
`json.loads` on the regex-matched bracket span, else `None`. -/
def extract_json (text : String) : Option JsonValue :=
  match json_loads text with
  | some v => some v
  | none =>
    match findJsonSpan text.toList with
    | some span =>
      match json_loads (String.mk span) with
      | some v => some v
      | none => none
    | none => none

/-- The natural number denoted by a digit string. -/
def digitsToNat (ds : List Char) : Nat :=
  ds.foldl (fun acc c => acc * 10 + (c.toNat - 48)) 0

/-- Python truth-value of a parsed JSON number, given its lexeme.  The
lexemes reachable here are the JSON number grammar plus `NaN`, `Infinity`
and `-Infinity`.  `nan` and the infinities are truthy floats.  A lexeme
with neither fraction nor exponent is a Python `int`, falsy exactly when
zero.  Otherwise `json.loads` produces the correctly rounded IEEE-754
double of the decimal value `M * 10 ^ E`, which is (a falsy) `±0.0` exactly
when `M = 0` or `|value| ≤ 2 ^ (-1075)` — half the smallest subnormal, the
tie itself rounding to the even `0.0` — so decimal underflow such as
`1e-400` is falsy while `NaN` is not. -/
def numLexFalsy (raw : String) : Bool :=
  let l0 := raw.toList
  let l := if l0.headD ' ' = '-' then l0.tail else l0
  if l = "NaN".toList ∨ l = "Infinity".toList then false
  else
    let ds := l.takeWhile Char.isDigit
    let rest := l.dropWhile Char.isDigit
    let fs :=
      match rest with
      | '.' :: r => r.takeWhile Char.isDigit
      | _ => []
    let rest2 :=
      match rest with
      | '.' :: r => r.dropWhile Char.isDigit
      | _ => rest
    let hasFrac : Bool :=
      match rest with
      | '.' :: _ => true
      | _ => false
    let hasExp : Bool :=
      match rest2 with
      | c :: _ => c = 'e' ∨ c = 'E'
      | [] => false
    if ¬hasFrac ∧ ¬hasExp then ds.all (fun c => c = '0')
    else
      let es :=
        match rest2 with
        | _ :: '-' :: r2 => r2.takeWhile Char.isDigit
        | _ :: '+' :: r2 => r2.takeWhile Char.isDigit
        | _ :: r => r.takeWhile Char.isDigit
        | [] => []
      let expNeg : Bool :=
        match rest2 with
        | _ :: '-' :: _ => true
        | _ => false
      let M := digitsToNat (ds ++ fs)
      let E : Int :=
        (if expNeg then -(digitsToNat es : Int) else (digitsToNat es : Int)) -
          (fs.length : Int)
      if M = 0 then true
      else if 0 ≤ E then false
      else decide (M * 2 ^ 1075 ≤ 10 ^ (-E).toNat)

/-- Python truth-value of a `json.loads` result: `None`, `False`, numeric
zero (including floats that underflow to `0.0`), and empty
string/list/dict are falsy; `nan` and the infinities are truthy. -/
def pyFalsy : JsonValue → Bool
  | JsonValue.null => true
  | JsonValue.bool b => !b
  | JsonValue.num raw => numLexFalsy raw
  | JsonValue.str s => s.isEmpty
  | JsonValue.arr xs => xs.isEmpty
  | JsonValue.obj kvs => kvs.isEmpty

/-- Python truthiness test `not x` applied to an extraction result. -/
def pyFalsyOpt : Option JsonValue → Bool
  | none => true
  | some v => pyFalsy v

/-- Whether `p` is a prefix of `l` (character-exact). -/
def startsWithChars : List Char → List Char → Bool
  | [], _ => true
  | _ :: _, [] => false
  | p :: ps, c :: cs => p = c ∧ startsWithChars ps cs

/-- Python `str.startswith`. -/
def pyStartsWith (pre s : String) : Bool :=
  startsWithChars pre.toList s.toList

/-- Left-to-right non-overlapping replacement of a non-empty pattern, the
semantics of Python `str.replace` for the patterns this module uses. -/
def replaceChars (pat repl : List Char) : Nat → List Char → List Char
  | _, [] => []
  | 0, l => l
  | fuel + 1, c :: rest =>
    if startsWithChars pat (c :: rest) then
      repl ++ replaceChars pat repl fuel ((c :: rest).drop pat.length)
    else c :: replaceChars pat repl fuel rest

/-- Python `str.replace` (for non-empty patterns). -/
def pyReplace (s pat repl : String) : String :=
  String.mk (replaceChars pat.toList repl.toList (s.toList.length + 1) s.toList)

/-- Characters stripped by the Python no-argument `str.strip`. -/
def isPySpace (c : Char) : Bool :=
  c = ' ' ∨ c = '\t' ∨ c = '\n' ∨ c = '\r' ∨ c = Char.ofNat 11 ∨ c = Char.ofNat 12

/-- Python `str.strip()` with no arguments: whitespace removed from both
ends. -/
def pyStrip (s : String) : String :=
  String.mk (((s.toList.dropWhile isPySpace).reverse.dropWhile isPySpace).reverse)

/-- Splitting on a one-character separator, the semantics of Python
`str.split(sep)` for the single-comma separator this module uses (empty
fields kept; an empty string yields one empty field). -/
def splitCharAux (sep : Char) : List Char → List Char → List (List Char)
  | [], acc => [acc.reverse]
  | c :: rest, acc =>
    if c = sep then acc.reverse :: splitCharAux sep rest []
    else splitCharAux sep rest (c :: acc)

/-- Python `str.split(sep)` for a one-character separator. -/
def pySplitChar (sep : Char) (s : String) : List String :=
  (splitCharAux sep s.toList []).map String.mk

/-- Python `sep.join(xs)`. -/
def pyJoin (sep : String) : List String → String
  | [] => ""
  | [x] => x
  | x :: xs => x ++ sep ++ pyJoin sep xs

/-- External actions performed by the service: a Gemini completion call (with
the full prompt sent), a Groq chat call (with its message list), a Hugging
Face text-to-image call (model id), the keyless Pollinations GET (recording
the pre-encoding final prompt and the full URL), and a logo-file write. -/
inductive Event where
  | geminiCall : String → Event
  | groqCall : List (String × String) → Event
  | hfCall : String → Event
  | pollCall : String → String → Event
  | fileWrite : String → Event
deriving Repr, DecidableEq

/-- Configuration and provider behaviour for one request.  The three `Bool`
fields model which clients `AIService.__init__` created from credentials;
the oracles give each external call a deterministic outcome (`Except.error`
models a raised exception, carried as its message string).  `poll` is the
outcome of the Pollinations GET: HTTP status plus an abstract bitmap.
`uuid_hex` models `uuid.uuid4().hex` and `seed` the random URL seed. -/
structure Env where
  genai_model : Bool
  groq_client : Bool
  hf_client : Bool
  gemini : String → Except String String
  groq : List (String × String) → Except String String
  hf : String → Except String Nat
  poll : Except String (Nat × Nat)
  seed : Nat
  uuid_hex : String

/-- The prompt actually sent to Gemini: the system instruction prepended
with a blank-line separator when present. -/
def fullPrompt (system_instruction : Option String) (prompt : String) : String :=
  match system_instruction with
  | some s => s ++ "\n\n" ++ prompt
  | none => prompt

/-- The chat message list sent to Groq: an optional leading system message,
then the user prompt. -/
def groqMessages (system_instruction : Option String) (prompt : String) :
    List (String × String) :=
  (match system_instruction with
   | some s => [("system", s)]
   | none => []) ++ [("user", prompt)]

/-- The Groq stage of `AIService._generate_text` (entered when Gemini is
absent or failed): build the chat messages, call Groq, re-raise its error;
with no Groq client, raise the no-client exception. -/
def groqStage (env : Env) (prompt : String) (system_instruction : Option String)
    (evs : List Event) : Except String String × List Event :=
  if env.groq_client then
    let messages := groqMessages system_instruction prompt
    match env.groq messages with
    | Except.ok r => (Except.ok r, evs ++ [Event.groqCall messages])
    | Except.error e => (Except.error e, evs ++ [Event.groqCall messages])
  else (Except.error "No working LLM client available (Gemini or Groq)", evs)

/-- Model of `AIService._generate_text` with its call trace: try Gemini
first (system instruction prepended to the prompt with a blank line), fall
through to Groq on a Gemini exception. -/
def generate_text_t (env : Env) (prompt : String) (system_instruction : Option String) :
    Except String String × List Event :=
  if env.genai_model then
    let full_prompt := fullPrompt system_instruction prompt
    match env.gemini full_prompt with
    | Except.ok t => (Except.ok t, [Event.geminiCall full_prompt])
    | Except.error _ =>
      groqStage env prompt system_instruction [Event.geminiCall full_prompt]
  else groqStage env prompt system_instruction []

/-- `AIService._generate_text`, result only. -/
def generate_text (env : Env) (prompt : String) (system_instruction : Option String) :
    Except String String :=
  (generate_text_t env prompt system_instruction).1

/-- Prompt of `generate_brand` (keywords already joined with `", "`). -/
def brandPrompt (description keywordsStr : String) : String :=
  "Generate 5 unique, memorable brand names for a business described as: \x27" ++
  description ++ "\x27.\nKeywords: " ++ keywordsStr ++
  "\n\nRequirements:\n- Creative and memorable\n- Easy to pronounce\n- Modern and professional\n\nReturn ONLY a valid JSON array of strings (e.g. [\"Name1\", \"Name2\"]). No other text."

/-- Prompt of `generate_tagline`. -/
def taglinePrompt (brand_name description tone : String) : String :=
  "Generate 5 catchy and impactful taglines for the brand \x27" ++ brand_name ++
  "\x27, which is described as: \x27" ++ description ++ "\x27.\nTone: " ++ tone ++
  "\n\nProvide the output in valid JSON format as a list of objects, where each object has:\n- \"tagline\": The tagline text\n- \"logic\": A brief explanation of why this tagline works (marketing perspective)\n\nReturn ONLY valid JSON. No other text."

/-- Prompt of `generate_content`. -/
def contentPrompt (topic tone content_type : String) : String :=
  "Write a " ++ content_type ++ " about \x27" ++ topic ++ "\x27 in a " ++ tone ++
  " tone. Keep it engaging and concise."

/-- Prompt of `generate_product_description`. -/
def productPrompt (product_name features target_audience tone : String) : String :=
  "Create compelling product descriptions for \x27" ++ product_name ++
  "\x27.\nFeatures: " ++ features ++ "\nTarget Audience: " ++ target_audience ++
  "\nTone: " ++ tone ++
  "\n\nProvide the output in valid JSON format with the following keys:\n- \"short_description\": A 1-2 sentence summary suitable for a catalog card.\n- \"long_description\": A detailed paragraph (3-4 sentences) describing the product benefits.\n- \"marketing_blurb\": A catchy phrase or short paragraph for social media/ads.\n- \"bullets\": A list of 5 customer-focused bullet points highlighting benefits.\n\nReturn ONLY valid JSON. No other text."

/-- Prompt of `analyze_sentiment` (`brand_name` is the optional pydantic
field; Python tests it for truthiness, so `none` and `""` both drop the
brand context). -/
def sentimentPrompt (text : String) (brand_name : Option String) : String :=
  let brand_context :=
    match brand_name with
    | some s => if s = "" then "" else " for the brand \x27" ++ s ++ "\x27"
    | none => ""
  "Analyze the following customer comments/reviews" ++ brand_context ++
  ":\n\n\"" ++ text ++
  "\"\n\nProvide a detailed analysis in valid JSON format with the following keys:\n- \"sentiment\": \"Positive\", \"Neutral\", or \"Negative\"\n- \"score\": A score from 0 to 100 (where 100 is perfect)\n- \"summary\": A brief summary of the feedback (max 2 sentences)\n- \"key_issues\": A list of specific problems or complaints mentioned\n- \"suggestions\": A list of actionable recommendations for the brand to improve\n\nReturn ONLY valid JSON. Do not include markdown formatting or explanations."

/-- Prompt of `analyze_tagline`. -/
def taglineAnalysisPrompt (tagline brand_name : String) (brand_description : Option String) :
    String :=
  let ctx :=
    match brand_description with
    | some s => if s = "" then "" else " described as \x27" ++ s ++ "\x27"
    | none => ""
  "Analyze this tagline for the brand \x27" ++ brand_name ++ "\x27" ++ ctx ++
  ":\nTagline: \"" ++ tagline ++
  "\"\n\nProvide a detailed marketing assessment in valid JSON format with the following keys:\n- \"sentiment\": \"Positive\", \"Bold\", \"Playful\", \"Neutral\", etc.\n- \"impact_score\": A score from 0 to 100 for memorability and effectiveness.\n- \"reach_potential\": \"High\", \"Medium\", or \"Low\" (likelihood to be shared or remembered).\n- \"analysis\": A 2-3 sentence explanation of why the tagline works or doesn\x27t work.\n- \"suggestions\": A list of 3 concrete ways to improve it for better reach and impact.\n- \"better_alternatives\": A list of 3 improved versions of the tagline.\n\nReturn ONLY valid JSON. No other text."

/-- Prompt of `get_colors`. -/
def colorsPrompt (description : String) : String :=
  "Suggest a color palette (5 colors) for a brand described as: \x27" ++ description ++
  "\x27. Return ONLY the hex codes in a comma-separated list. do not include any other text."

/-- Concept prompt sent to the LLM by `generate_logo`. -/
def conceptPrompt (description style : String) : String :=
  "Generate a concise stable diffusion prompt for a logo for: \x27" ++ description ++
  "\x27.\nStyle: " ++ style ++
  ".\nRequirements:\n- Focus on the main subject/icon\n- Use comma-separated keywords\n- No clear text/letters\n- Visual elements only\n\nExample output: minimalist coffee cup, steam, brown and white, vector art, flat design, centered"

/-- System instruction used by `generate_brand`. -/
def sysBrand : String :=
  "You are a creative brand naming expert. You always respond with ONLY valid JSON."

/-- System instruction used by `generate_tagline`. -/
def sysTagline : String :=
  "You are a creative marketing copywriter. You always respond with ONLY valid JSON."

/-- System instruction used by `generate_product_description`. -/
def sysProduct : String :=
  "You are an expert e-commerce copywriter. You always respond with ONLY valid JSON."

/-- System instruction used by `analyze_sentiment`. -/
def sysSentiment : String :=
  "You are an expert brand analyst. You always respond with ONLY valid JSON."

/-- System instruction used by `analyze_tagline`. -/
def sysTaglineAnalysis : String :=
  "You are a world-class brand strategist. You always respond with ONLY valid JSON."

/-- Name cleaning in `generate_brand`: keep the `name` entry of dict items
and string items as-is; drop everything else. -/
def cleanBrandNames (ns : List JsonValue) : List JsonValue :=
  ns.filterMap (fun n =>
    match n with
    | JsonValue.obj kvs => kvs.lookup "name"
    | JsonValue.str s => some (JsonValue.str s)
    | _ => none)

/-- Model of `AIService.generate_brand`: fallback chain, extraction, a
comma-split rescue when extraction is falsy and the raw text contains a
comma, then list cleaning; errors become the HTTP-500 detail string. -/
def generate_brand (env : Env) (description : String) (keywords : List String) :
    Except String JsonValue × List Event :=
  let prompt := brandPrompt description (pyJoin ", " keywords)
  match generate_text_t env prompt (some sysBrand) with
  | (Except.error e, tr) => (Except.error e, tr)
  | (Except.ok result, tr) =>
    let names := extract_json result
    let names2 : Option JsonValue :=
      if pyFalsyOpt names ∧ result.toList.contains ',' then
        some (JsonValue.arr (((pySplitChar ',' result).map pyStrip).map JsonValue.str))
      else names
    match names2 with
    | some (JsonValue.arr ns) =>
      (Except.ok (JsonValue.obj [("brand_names", JsonValue.arr (cleanBrandNames ns))]), tr)
    | _ => (Except.ok (JsonValue.obj [("brand_names", JsonValue.arr [])]), tr)

/-- The fixed fallback payload of `generate_tagline`. -/
def taglineFallback (brand_name : String) : JsonValue :=
  JsonValue.obj [("taglines", JsonValue.arr
    [JsonValue.obj [("tagline", JsonValue.str (brand_name ++ ": The best choice.")),
                    ("logic", JsonValue.str "Generic fallback")]])]

/-- Model of `AIService.generate_tagline`. -/
def generate_tagline (env : Env) (brand_name description tone : String) :
    Except String JsonValue × List Event :=
  let prompt := taglinePrompt brand_name description tone
  match generate_text_t env prompt (some sysTagline) with
  | (Except.error e, tr) => (Except.error e, tr)
  | (Except.ok result, tr) =>
    let taglines := extract_json result
    if pyFalsyOpt taglines then (Except.ok (taglineFallback brand_name), tr)
    else
      (Except.ok (JsonValue.obj [("taglines", taglines.getD JsonValue.null)]), tr)

/-- Model of `AIService.generate_content`: calls the Groq client directly
(no Gemini attempt, no extraction); raises when Groq is not configured. -/
def generate_content (env : Env) (topic tone content_type : String) :
    Except String JsonValue × List Event :=
  let prompt := contentPrompt topic tone content_type
  if env.groq_client then
    match env.groq [("user", prompt)] with
    | Except.ok c =>
      (Except.ok (JsonValue.obj [("content", JsonValue.str c)]),
       [Event.groqCall [("user", prompt)]])
    | Except.error e => (Except.error e, [Event.groqCall [("user", prompt)]])
  else (Except.error "Groq Client not initialized", [])

/-- The fixed fallback payload of `generate_product_description`. -/
def productFallback : JsonValue :=
  JsonValue.obj [("short_description", JsonValue.str "Failed to generate description."),
                 ("long_description", JsonValue.str "Please try again."),
                 ("marketing_blurb", JsonValue.str ""),
                 ("bullets", JsonValue.arr [])]

/-- Model of `AIService.generate_product_description`. -/
def generate_product_description (env : Env)
    (product_name features target_audience tone : String) :
    Except String JsonValue × List Event :=
  let prompt := productPrompt product_name features target_audience tone
  match generate_text_t env prompt (some sysProduct) with
  | (Except.error e, tr) => (Except.error e, tr)
  | (Except.ok result, tr) =>
    let content := extract_json result
    if pyFalsyOpt content then (Except.ok productFallback, tr)
    else (Except.ok (content.getD JsonValue.null), tr)

/-- The fixed fallback payload of `analyze_sentiment`. -/
def sentimentFallback : JsonValue :=
  JsonValue.obj [("sentiment", JsonValue.str "Neutral"),
                 ("score", JsonValue.num "50"),
                 ("summary", JsonValue.str "Could not parse detailed analysis."),
                 ("key_issues", JsonValue.arr [JsonValue.str "Analysis format error"]),
                 ("suggestions", JsonValue.arr
                   [JsonValue.str "Please try again with different text."])]

/-- Model of `AIService.analyze_sentiment`. -/
def analyze_sentiment (env : Env) (text : String) (brand_name : Option String) :
    Except String JsonValue × List Event :=
  let prompt := sentimentPrompt text brand_name
  match generate_text_t env prompt (some sysSentiment) with
  | (Except.error e, tr) => (Except.error e, tr)
  | (Except.ok result, tr) =>
    let analysis := extract_json result
    if pyFalsyOpt analysis then (Except.ok sentimentFallback, tr)
    else (Except.ok (analysis.getD JsonValue.null), tr)

/-- The fixed fallback payload of `analyze_tagline`. -/
def taglineAnalysisFallback : JsonValue :=
  JsonValue.obj [("sentiment", JsonValue.str "Unknown"),
                 ("impact_score", JsonValue.num "0"),
                 ("reach_potential", JsonValue.str "Low"),
                 ("analysis", JsonValue.str "Could not analyze tagline."),
                 ("suggestions", JsonValue.arr []),
                 ("better_alternatives", JsonValue.arr [])]

/-- Model of `AIService.analyze_tagline`. -/
def analyze_tagline (env : Env) (tagline brand_name : String)
    (brand_description : Option String) : Except String JsonValue × List Event :=
  let prompt := taglineAnalysisPrompt tagline brand_name brand_description
  match generate_text_t env prompt (some sysTaglineAnalysis) with
  | (Except.error e, tr) => (Except.error e, tr)
  | (Except.ok result, tr) =>
    let analysis := extract_json result
    if pyFalsyOpt analysis then (Except.ok taglineAnalysisFallback, tr)
    else (Except.ok (analysis.getD JsonValue.null), tr)

/-- Model of `AIService.get_colors`: direct Groq call, then the `#`-filter
comma split of the reply. -/
def get_colors (env : Env) (description : String) :
    Except String JsonValue × List Event :=
  let prompt := colorsPrompt description
  if env.groq_client then
    match env.groq [("user", prompt)] with
    | Except.ok colors_text =>
      let colors := (((pySplitChar ',' (pyReplace colors_text "\n" "")).map pyStrip).filter
        (fun c => pyStartsWith "#" c))
      (Except.ok (JsonValue.obj [("colors", JsonValue.arr (colors.map JsonValue.str))]),
       [Event.groqCall [("user", prompt)]])
    | Except.error e => (Except.error e, [Event.groqCall [("user", prompt)]])
  else (Except.error "Groq Client not initialized", [])

/-- Model of `AIService.chat`: history re-labelled (anything not `"user"`
becomes `"assistant"`), the new message appended, direct Groq call. -/
def chat (env : Env) (message : String) (history : List (String × String)) :
    Except String JsonValue × List Event :=
  if env.groq_client then
    let messages :=
      history.map (fun m => (if m.1 = "user" then "user" else "assistant", m.2)) ++
      [("user", message)]
    match env.groq messages with
    | Except.ok r =>
      (Except.ok (JsonValue.obj [("reply", JsonValue.str r)]), [Event.groqCall messages])
    | Except.error e => (Except.error e, [Event.groqCall messages])
  else (Except.error "Groq Client not initialized", [])

/-- Upper-case hexadecimal digit, as `urllib.parse.quote` emits. -/
def hexUpper (n : Nat) : Char :=
  if n < 10 then Char.ofNat (48 + n) else Char.ofNat (55 + n)

/-- Percent-encoding of one UTF-8 byte under the default `quote` safe set
(unreserved characters plus `/`). -/
def quoteByte (b : UInt8) : List Char :=
  let n := b.toNat
  let c := Char.ofNat n
  if c.isAlphanum ∨ c = '_' ∨ c = '.' ∨ c = '-' ∨ c = '~' ∨ c = '/' then [c]
  else ['%', hexUpper (n / 16), hexUpper (n % 16)]

/-- Model of `urllib.parse.quote` with default arguments. -/
def urlQuote (s : String) : String :=
  String.mk ((s.toUTF8.toList.map quoteByte).flatten)

/-- The Pollinations URL built by `generate_logo` from the already-encoded
prompt and the random seed. -/
def pollUrl (safe_prompt : String) (seed : Nat) : String :=
  "https://image.pollinations.ai/prompt/" ++ safe_prompt ++
  "?nologo=true&width=512&height=512&seed=" ++ toString (seed % 10000) ++ "&model=flux"

/-- The static Hugging Face model list of `generate_logo` with each step
count. -/
def models_to_try : List (String × Nat) :=
  [("ByteDance/SDXL-Lightning", 8),
   ("runwayml/stable-diffusion-v1-5", 20),
   ("segmind/SSD-1B", 20),
   ("prompthero/openjourney", 20)]

/-- The Hugging Face loop of `generate_logo`: try each model in order, stop
at the first success, remember the last error.  Returns the image (if any),
the last error, and the calls made. -/
def tryModels (env : Env) : List (String × Nat) → Option String →
    Option Nat × Option String × List Event
  | [], lastErr => (none, lastErr, [])
  | (mid, _) :: rest, lastErr =>
    match env.hf mid with
    | Except.ok img => (some img, lastErr, [Event.hfCall mid])
    | Except.error e =>
      let r := tryModels env rest (some e)
      (r.1, r.2.1, Event.hfCall mid :: r.2.2)

/-- Python `str(e)` where `e` may be `None` (the `last_error` variable). -/
def errStr : Option String → String
  | some e => e
  | none => "None"

/-- The response mapping of `generate_logo`: the engineered prompt, the
inline bitmap (abstracted; `some` stands for the base64 data URI of the
saved PNG) and the static file URL. -/
structure LogoResult where
  prompt : String
  image : Option Nat
  file_url : Option String
deriving Repr, DecidableEq

/-- Model of `AIService.generate_logo` with its call/file trace.  Mirrors the
source: Groq-client guard, concept prompt through the fallback chain, prompt
cleanup, then — only when the Hugging Face client exists — the model loop,
the single Pollinations fallback GET (prompt trimmed to 400 characters
before URL-encoding), the all-failed raise, and the file save.  Errors carry
the HTTP-500 detail `"Logo generation failed: ..."`. -/
def generate_logo (env : Env) (description style : String) :
    Except String LogoResult × List Event :=
  if env.groq_client then
    match generate_text_t env (conceptPrompt description style) none with
    | (Except.error e, tr) => (Except.error ("Logo generation failed: " ++ e), tr)
    | (Except.ok raw0, tr) =>
      let raw_prompt := pyStrip (pyReplace (pyReplace raw0 "Prompt:" "") "\"" "")
      let image_prompt := "logo of " ++ description ++ ", " ++ raw_prompt ++
        ", vector, flattened, minimal, white background, high quality, 4k"
      if env.hf_client then
        let r := tryModels env models_to_try none
        let afterPoll : Option Nat × List Event :=
          match r.1 with
          | some img => (some img, [])
          | none =>
            let final_prompt0 := image_prompt ++ ", vector art, centered, no text"
            let final_prompt :=
              if final_prompt0.length > 400 then String.mk (final_prompt0.toList.take 400)
              else final_prompt0
            let url := pollUrl (urlQuote final_prompt) env.seed
            let img :=
              match env.poll with
              | Except.ok (status, body) => if status = 200 then some body else none
              | Except.error _ => none
            (img, [Event.pollCall final_prompt url])
        match afterPoll.1 with
        | none =>
          (Except.error ("Logo generation failed: All models failed. Last error: " ++
             errStr r.2.1), tr ++ r.2.2 ++ afterPoll.2)
        | some img =>
          let filename := "logo_" ++ env.uuid_hex ++ ".png"
          (Except.ok { prompt := image_prompt, image := some img,
                       file_url := some ("/static/generated_logos/" ++ filename) },
           tr ++ r.2.2 ++ afterPoll.2 ++ [Event.fileWrite filename])
      else
        (Except.ok { prompt := image_prompt, image := none, file_url := none }, tr)
  else (Except.error "Logo generation failed: Groq Client not initialized", [])

/-- Trace predicate: the event is a Pollinations GET. -/
def isPollCall : Event → Bool
  | Event.pollCall _ _ => true
  | _ => false

/-- Trace predicate: the event is a logo-file write. -/
def isFileWrite : Event → Bool
  | Event.fileWrite _ => true
  | _ => false

/-- Trace predicate: the event is any provider network call (Gemini, Groq,
Hugging Face, or Pollinations). -/
def isNetworkCall : Event → Bool
  | Event.fileWrite _ => false
  | _ => true

/-- Span from claim C6 as worded: the substring from the FIRST `[` or `{` of
the text to the LAST `]` or `}` of the text, regardless of bracket kind. -/
def claimSpanC6 (l : List Char) : Option (List Char) :=
  match l.dropWhile (fun c => c ≠ '[' ∧ c ≠ '{') with
  | [] => none
  | c :: rest =>
    match (rest.reverse.dropWhile (fun x => x ≠ ']' ∧ x ≠ '}')) with
    | [] => none
    | r => some (c :: r.reverse)

/-- The extraction algorithm exactly as claim C6 words it: direct parse,
else parse of `claimSpanC6`, else `none`. -/
def extract_json_claimed (text : String) : Option JsonValue :=
  match json_loads text with
  | some v => some v
  | none =>
    match claimSpanC6 text.toList with
    | some span => json_loads (String.mk span)
    | none => none

/-- One candidate span at a single position: a `[` here paired with the last
`]` strictly after it, or a `{` here paired with the last `}` strictly after
it; `none` when this position opens no span. -/
def spanFrom : List Char → Option (List Char)
  | [] => none
  | c :: rest =>
    if c = '[' then (upToLast ']' rest).map (fun pre => '[' :: pre)
    else if c = '{' then (upToLast '}' rest).map (fun pre => '{' :: pre)
    else none

/-- The amended span heuristic stated independently of the source recursion:
among all suffixes of the text, in order, the first one that opens a
same-kind bracket span. -/
def amendedSpan (l : List Char) : Option (List Char) :=
  (l.tails.filterMap spanFrom).head?

/-- The amended extraction algorithm: direct parse, else parse of the
`amendedSpan` match, else `none`. -/
def extract_json_amended (text : String) : Option JsonValue :=
  match json_loads text with
  | some v => some v
  | none =>
    match amendedSpan text.toList with
    | some span =>
      match json_loads (String.mk span) with
      | some v => some v
      | none => none
    | none => none

/-- A test configuration with only the Groq client, whose chat calls always
return `reply`. -/
def groqOnlyEnv (reply : String) : Env :=
  { genai_model := false, groq_client := true, hf_client := false,
    gemini := fun _ => Except.error "not configured",
    groq := fun _ => Except.ok reply,
    hf := fun _ => Except.error "not configured",
    poll := Except.error "not configured", seed := 7, uuid_hex := "0123abcd" }

/-- A test configuration with only the Gemini client, whose calls always
return `reply`. -/
def gemOnlyEnv (reply : String) : Env :=
  { genai_model := true, groq_client := false, hf_client := false,
    gemini := fun _ => Except.ok reply,
    groq := fun _ => Except.error "not configured",
    hf := fun _ => Except.error "not configured",
    poll := Except.error "not configured", seed := 7, uuid_hex := "0123abcd" }

/-- A test configuration with only the Gemini client, whose calls always
fail with `msg`. -/
def gemOnlyFailEnv (msg : String) : Env :=
  { genai_model := true, groq_client := false, hf_client := false,
    gemini := fun _ => Except.error msg,
    groq := fun _ => Except.error "not configured",
    hf := fun _ => Except.error "not configured",
    poll := Except.error "not configured", seed := 7, uuid_hex := "0123abcd" }

/-- A test configuration with no text provider at all. -/
def noProviderEnv : Env :=
  { genai_model := false, groq_client := false, hf_client := false,
    gemini := fun _ => Except.error "not configured",
    groq := fun _ => Except.error "not configured",
    hf := fun _ => Except.error "not configured",
    poll := Except.error "not configured", seed := 7, uuid_hex := "0123abcd" }

/-- A test configuration with both text clients: Gemini always fails with
`gmsg`, Groq always answers `reply`. -/
def gemFailGroqOkEnv (gmsg reply : String) : Env :=
  { genai_model := true, groq_client := true, hf_client := false,
    gemini := fun _ => Except.error gmsg,
    groq := fun _ => Except.ok reply,
    hf := fun _ => Except.error "not configured",
    poll := Except.error "not configured", seed := 7, uuid_hex := "0123abcd" }

/-- A test configuration for the image cascade: Groq answers the concept
prompt, every Hugging Face model fails with a model-specific message, and
the Pollinations GET fails too. -/
def cascadeFailEnv : Env :=
  { genai_model := false, groq_client := true, hf_client := true,
    gemini := fun _ => Except.error "not configured",
    groq := fun _ => Except.ok "minimalist coffee cup, steam",
    hf := fun mid => Except.error ("model down: " ++ mid),
    poll := Except.error "connection timed out", seed := 7, uuid_hex := "0123abcd" }

/-- A test configuration with both text clients configured and both always
failing. -/
def bothFailEnv : Env :=
  { genai_model := true, groq_client := true, hf_client := false,
    gemini := fun _ => Except.error "gemini down",
    groq := fun _ => Except.error "groq down",
    hf := fun _ => Except.error "not configured",
    poll := Except.error "not configured", seed := 7, uuid_hex := "0123abcd" }

theorem gtt_trace_kinds (env : Env) (p : String) (si : Option String) :
    ∀ ev ∈ (generate_text_t env p si).2,
      isPollCall ev = false ∧ isFileWrite ev = false := by
  intro ev hev
  unfold generate_text_t groqStage at hev
  by_cases hgm : env.genai_model = true
  · simp only [hgm, if_true] at hev
    cases hge : env.gemini (fullPrompt si p) with
    | error e =>
      rw [hge] at hev
      by_cases hgc : env.groq_client = true
      · simp only [hgc, if_true] at hev
        cases hgr : env.groq (groqMessages si p) with
        | error e2 =>
          rw [hgr] at hev
          simp at hev
          rcases hev with h | h <;> subst h <;> exact ⟨rfl, rfl⟩
        | ok t =>
          rw [hgr] at hev
          simp at hev
          rcases hev with h | h <;> subst h <;> exact ⟨rfl, rfl⟩
      · simp only [Bool.not_eq_true] at hgc
        simp [hgc] at hev
        subst hev; exact ⟨rfl, rfl⟩
    | ok t =>
      rw [hge] at hev
      simp at hev
      subst hev; exact ⟨rfl, rfl⟩
  · simp only [Bool.not_eq_true] at hgm
    simp only [hgm] at hev
    by_cases hgc : env.groq_client = true
    · simp only [hgc, if_true] at hev
      cases hgr : env.groq (groqMessages si p) with
      | error e2 =>
        rw [hgr] at hev; simp at hev; subst hev; exact ⟨rfl, rfl⟩
      | ok t =>
        rw [hgr] at hev; simp at hev; subst hev; exact ⟨rfl, rfl⟩
    · simp only [Bool.not_eq_true] at hgc
      simp [hgm, hgc] at hev

theorem gtt_countP_poll (env : Env) (p : String) (si : Option String) :
    ((generate_text_t env p si).2).countP isPollCall = 0 := by
  rw [List.countP_eq_zero]
  intro ev hev
  simp [(gtt_trace_kinds env p si ev hev).1]

theorem gtt_filter_fileWrite (env : Env) (p : String) (si : Option String) :
    ((generate_text_t env p si).2).filter isFileWrite = [] := by
  rw [List.filter_eq_nil_iff]
  intro ev hev
  simp [(gtt_trace_kinds env p si ev hev).2]

/-- C4: with zero text providers configured, `_generate_text` raises the
no-provider error immediately, and its call trace is empty — no network
call is attempted. -/
theorem C4_no_provider_immediate (env : Env) (p : String) (si : Option String)
    (hgm : env.genai_model = false) (hgc : env.groq_client = false) :
    generate_text_t env p si =
      (Except.error "No working LLM client available (Gemini or Groq)", []) := by
  simp [generate_text_t, groqStage, hgm, hgc]

/-- C4 witness: the concrete no-provider configuration. -/
theorem C4_no_provider_immediate_witness :
    generate_text_t noProviderEnv "hello" none =
      (Except.error "No working LLM client available (Gemini or Groq)", []) :=
  C4_no_provider_immediate noProviderEnv "hello" none rfl rfl

/-- C5: with both providers configured, a Gemini failure followed by a Groq
success returns exactly the Groq text, and the trace shows exactly those two
calls — nothing is attempted after the success. -/
theorem C5_second_provider_text (env : Env) (p : String) (si : Option String)
    (t ge : String)
    (hgm : env.genai_model = true) (hgc : env.groq_client = true)
    (hge : env.gemini (fullPrompt si p) = Except.error ge)
    (hgr : env.groq (groqMessages si p) = Except.ok t) :
    generate_text_t env p si =
      (Except.ok t, [Event.geminiCall (fullPrompt si p),
                     Event.groqCall (groqMessages si p)]) := by
  simp [generate_text_t, groqStage, hgm, hgc, hge, hgr]

/-- C5 witness: Gemini down, Groq answers `"GROQ TEXT"`. -/
theorem C5_second_provider_text_witness :
    generate_text_t (gemFailGroqOkEnv "gemini down" "GROQ TEXT") "p" (some "sys") =
      (Except.ok "GROQ TEXT",
       [Event.geminiCall (fullPrompt (some "sys") "p"),
        Event.groqCall (groqMessages (some "sys") "p")]) :=
  C5_second_provider_text (gemFailGroqOkEnv "gemini down" "GROQ TEXT") "p" (some "sys")
    "GROQ TEXT" "gemini down" rfl rfl rfl rfl

/-- C3 counterexample: with only the first-priority provider (Gemini)
configured and failing, `_generate_text` raises the generic no-client
message, not an error carrying the Gemini failure. -/
theorem C3_counterexample :
    generate_text (gemOnlyFailEnv "gemini exploded") "p" none =
      Except.error "No working LLM client available (Gemini or Groq)" ∧
    generate_text (gemOnlyFailEnv "gemini exploded") "p" none ≠
      Except.error "gemini exploded" := by
  refine ⟨rfl, ?_⟩
  intro h
  rw [show generate_text (gemOnlyFailEnv "gemini exploded") "p" none =
      Except.error "No working LLM client available (Gemini or Groq)" from rfl] at h
  simp at h

/-- C3 amended: when Groq is configured and every configured provider fails,
the raised error is the last provider (Groq) error; when only Gemini is
configured and it fails, the generic no-client error is raised instead. -/
theorem C3_exhaustion_error :
    (∀ (env : Env) (p : String) (si : Option String) (e : String),
      env.groq_client = true →
      env.groq (groqMessages si p) = Except.error e →
      (env.genai_model = false ∨ ∃ ge, env.gemini (fullPrompt si p) = Except.error ge) →
      generate_text env p si = Except.error e) ∧
    (∀ (env : Env) (p : String) (si : Option String) (ge : String),
      env.genai_model = true → env.groq_client = false →
      env.gemini (fullPrompt si p) = Except.error ge →
      generate_text env p si =
        Except.error "No working LLM client available (Gemini or Groq)") := by
  constructor
  · intro env p si e hgc hgr hgem
    rcases hgem with hgm | ⟨ge, hge⟩
    · simp [generate_text, generate_text_t, groqStage, hgm, hgc, hgr]
    · by_cases hgm : env.genai_model = true
      · simp [generate_text, generate_text_t, groqStage, hgm, hgc, hgr, hge]
      · simp only [Bool.not_eq_true] at hgm
        simp [generate_text, generate_text_t, groqStage, hgm, hgc, hgr]
  · intro env p si ge hgm hgc hge
    simp [generate_text, generate_text_t, groqStage, hgm, hgc, hge]

/-- C3 amended witness: both providers fail (error is the Groq one), and the
Gemini-only failure case. -/
theorem C3_exhaustion_error_witness :
    generate_text bothFailEnv "p" none = Except.error "groq down" ∧
    generate_text (gemOnlyFailEnv "gemini exploded") "q" none =
      Except.error "No working LLM client available (Gemini or Groq)" :=
  ⟨C3_exhaustion_error.1 bothFailEnv "p" none "groq down" rfl rfl
     (Or.inr ⟨"gemini down", rfl⟩),
   C3_exhaustion_error.2 (gemOnlyFailEnv "gemini exploded") "q" none "gemini exploded"
     rfl rfl rfl⟩

/-- C7: `_extract_json` is a total function into an option type — every
input yields either a parsed JSON value or `none`; no exception escapes. -/
theorem C7_extract_json_total (t : String) :
    extract_json t = none ∨ ∃ v, extract_json t = some v := by
  cases h : extract_json t with
  | none => exact Or.inl rfl
  | some v => exact Or.inr ⟨v, rfl⟩

/-- C1 counterexample: Groq configured, no image backend (no Hugging Face
client) — `generate_logo` returns a SUCCESS result with `image` and
`file_url` both null instead of failing. -/
theorem C1_counterexample :
    (generate_logo (groqOnlyEnv "minimalist coffee cup, steam") "coffee shop" "modern").1 =
      Except.ok
        { prompt := "logo of coffee shop, minimalist coffee cup, steam, vector, flattened, minimal, white background, high quality, 4k",
          image := none, file_url := none } := rfl

/-- C1 amended: whenever the text step succeeds and no image backend is
configured, `generate_logo` returns a success payload whose `image` and
`file_url` fields are null (it fails only when the Groq client is missing
or the concept-prompt generation raises). -/
theorem C1_no_image_backend_null_success (env : Env) (d s t : String)
    (hgc : env.groq_client = true) (hhf : env.hf_client = false)
    (ht : (generate_text_t env (conceptPrompt d s) none).1 = Except.ok t) :
    (generate_logo env d s).1 =
      Except.ok
        { prompt := "logo of " ++ d ++ ", " ++
            (pyStrip (pyReplace (pyReplace t "Prompt:" "") "\"" "")) ++
            ", vector, flattened, minimal, white background, high quality, 4k",
          image := none, file_url := none } := by
  rcases hq : generate_text_t env (conceptPrompt d s) none with ⟨a, tr⟩
  rw [hq] at ht
  simp only at ht
  subst ht
  simp [generate_logo, hgc, hhf, hq]

/-- C1 amended witness. -/
theorem C1_no_image_backend_null_success_witness :
    (generate_logo (groqOnlyEnv "x") "bakery" "minimal").1 =
      Except.ok
        { prompt := "logo of bakery, x, vector, flattened, minimal, white background, high quality, 4k",
          image := none, file_url := none } :=
  C1_no_image_backend_null_success (groqOnlyEnv "x") "bakery" "minimal" "x" rfl rfl rfl

/-- C2 counterexample: with only the first-priority provider (Gemini)
configured and succeeding, the fallback chain itself returns the Gemini
text, yet `generate_content`, `get_colors` and `chat` all fail with the
Groq-client error — they do not obtain their text from the chain. -/
theorem C2_counterexample :
    generate_text (gemOnlyEnv "GEMINI SAYS HI")
      (contentPrompt "tea" "casual" "blog post") none = Except.ok "GEMINI SAYS HI" ∧
    (generate_content (gemOnlyEnv "GEMINI SAYS HI") "tea" "casual" "blog post").1 =
      Except.error "Groq Client not initialized" ∧
    (get_colors (gemOnlyEnv "GEMINI SAYS HI") "tea").1 =
      Except.error "Groq Client not initialized" ∧
    (chat (gemOnlyEnv "GEMINI SAYS HI") "hello" []).1 =
      Except.error "Groq Client not initialized" :=
  ⟨rfl, rfl, rfl, rfl⟩

/-- C2 amended: five call sites (brand names, taglines, product
description, sentiment, tagline analysis) obtain their provider text from
the §4.1 fallback chain — whenever the chain succeeds with text `r`, the
result is determined by `r`; the other three (general content, colors,
chat) call the Groq client directly, and fail when it is unconfigured no
matter what the chain would have produced. -/
theorem C2_call_site_routing :
    (∀ (env : Env) (bn d tn r : String),
      generate_text env (taglinePrompt bn d tn) (some sysTagline) = Except.ok r →
      (generate_tagline env bn d tn).1 = Except.ok
        (if pyFalsyOpt (extract_json r) then taglineFallback bn
         else JsonValue.obj [("taglines", (extract_json r).getD JsonValue.null)])) ∧
    (∀ (env : Env) (d : String) (kw : List String) (r : String),
      generate_text env (brandPrompt d (pyJoin ", " kw)) (some sysBrand) = Except.ok r →
      (generate_brand env d kw).1 = Except.ok (JsonValue.obj [("brand_names", JsonValue.arr
        (match (if pyFalsyOpt (extract_json r) ∧ r.toList.contains ',' then
                  some (JsonValue.arr (((pySplitChar ',' r).map pyStrip).map JsonValue.str))
                else extract_json r) with
         | some (JsonValue.arr ns) => cleanBrandNames ns
         | _ => []))])) ∧
    (∀ (env : Env) (pn f ta tn r : String),
      generate_text env (productPrompt pn f ta tn) (some sysProduct) = Except.ok r →
      (generate_product_description env pn f ta tn).1 = Except.ok
        (if pyFalsyOpt (extract_json r) then productFallback
         else (extract_json r).getD JsonValue.null)) ∧
    (∀ (env : Env) (tx : String) (bn : Option String) (r : String),
      generate_text env (sentimentPrompt tx bn) (some sysSentiment) = Except.ok r →
      (analyze_sentiment env tx bn).1 = Except.ok
        (if pyFalsyOpt (extract_json r) then sentimentFallback
         else (extract_json r).getD JsonValue.null)) ∧
    (∀ (env : Env) (tl bn : String) (bd : Option String) (r : String),
      generate_text env (taglineAnalysisPrompt tl bn bd) (some sysTaglineAnalysis) =
        Except.ok r →
      (analyze_tagline env tl bn bd).1 = Except.ok
        (if pyFalsyOpt (extract_json r) then taglineAnalysisFallback
         else (extract_json r).getD JsonValue.null)) ∧
    (∀ (env : Env) (topic tone ct : String), env.groq_client = false →
      (generate_content env topic tone ct).1 =
        Except.error "Groq Client not initialized") ∧
    (∀ (env : Env) (d : String), env.groq_client = false →
      (get_colors env d).1 = Except.error "Groq Client not initialized") ∧
    (∀ (env : Env) (m : String) (h : List (String × String)), env.groq_client = false →
      (chat env m h).1 = Except.error "Groq Client not initialized") := by
  refine ⟨?_, ?_, ?_, ?_, ?_, ?_, ?_, ?_⟩
  · intro env bn d tn r hr
    rcases hq : generate_text_t env (taglinePrompt bn d tn) (some sysTagline) with ⟨a, tr⟩
    unfold generate_text at hr; rw [hq] at hr; simp only at hr; subst hr
    simp [generate_tagline, hq]
    split <;> rfl
  · intro env d kw r hr
    rcases hq : generate_text_t env (brandPrompt d (pyJoin ", " kw)) (some sysBrand)
      with ⟨a, tr⟩
    unfold generate_text at hr; rw [hq] at hr; simp only at hr; subst hr
    simp [generate_brand, hq]
    split <;> simp_all
  · intro env pn f ta tn r hr
    rcases hq : generate_text_t env (productPrompt pn f ta tn) (some sysProduct)
      with ⟨a, tr⟩
    unfold generate_text at hr; rw [hq] at hr; simp only at hr; subst hr
    simp [generate_product_description, hq]
    split <;> rfl
  · intro env tx bn r hr
    rcases hq : generate_text_t env (sentimentPrompt tx bn) (some sysSentiment)
      with ⟨a, tr⟩
    unfold generate_text at hr; rw [hq] at hr; simp only at hr; subst hr
    simp [analyze_sentiment, hq]
    split <;> rfl
  · intro env tl bn bd r hr
    rcases hq : generate_text_t env (taglineAnalysisPrompt tl bn bd)
      (some sysTaglineAnalysis) with ⟨a, tr⟩
    unfold generate_text at hr; rw [hq] at hr; simp only at hr; subst hr
    simp [analyze_tagline, hq]
    split <;> rfl
  · intro env topic tone ct hgc
    simp [generate_content, hgc]
  · intro env d hgc
    simp [get_colors, hgc]
  · intro env m h hgc
    simp [chat, hgc]

/-- C2 amended witness: the tagline site consumes the chain text; the
content site ignores a configured, succeeding Gemini. -/
theorem C2_call_site_routing_witness :
    (generate_tagline (groqOnlyEnv "[]") "Acme" "d" "catchy").1 = Except.ok
      (if pyFalsyOpt (extract_json "[]") then taglineFallback "Acme"
       else JsonValue.obj [("taglines", (extract_json "[]").getD JsonValue.null)]) ∧
    (generate_content (gemOnlyEnv "hi") "t" "casual" "blog post").1 =
      Except.error "Groq Client not initialized" :=
  ⟨C2_call_site_routing.1 (groqOnlyEnv "[]") "Acme" "d" "catchy" "[]" rfl,
   C2_call_site_routing.2.2.2.2.2.1 (gemOnlyEnv "hi") "t" "casual" "blog post" rfl⟩

theorem amendedSpan_eq_findJsonSpan (l : List Char) : amendedSpan l = findJsonSpan l := by
  induction l with
  | nil => rfl
  | cons c rest ih =>
    unfold amendedSpan findJsonSpan
    rw [List.tails_cons, List.filterMap_cons]
    by_cases h1 : c = '['
    · subst h1
      simp only [spanFrom, if_pos rfl]
      cases hu : upToLast ']' rest with
      | some pre => simp [hu]
      | none => simp only [hu, Option.map_none]; exact ih
    · by_cases h2 : c = '{'
      · subst h2
        simp only [spanFrom, h1, if_neg, if_pos rfl]
        cases hu : upToLast '}' rest with
        | some pre => simp [hu]
        | none => simp only [hu, Option.map_none]; exact ih
      · simp only [spanFrom, h1, h2, if_false]
        exact ih

/-- C6 counterexample: on `x{"a": 1}]` the regex pairs the `{` with the last
`}` and the code recovers `{a: 1}`, while the span the claim describes —
first opener to the last closer of either kind — is `{"a": 1}]`, which does
not parse, so the claimed algorithm yields `none`. -/
theorem C6_counterexample :
    extract_json "x\x7b\"a\": 1\x7d]" = some (JsonValue.obj [("a", JsonValue.num "1")]) ∧
    extract_json_claimed "x\x7b\"a\": 1\x7d]" = none :=
  ⟨rfl, rfl⟩

/-- C6 amended: `extract_json` first tries a direct parse; on failure it
takes the earliest position opening a bracket span — a `[` paired with the
last LATER `]`, or a `{` paired with the last LATER `}` (same-kind closer,
greedy, spanning newlines) — and returns that parse on success, else none;
and the three quoted examples hold. -/
theorem C6_extraction_algorithm :
    (∀ t : String, extract_json t = extract_json_amended t) ∧
    extract_json "\x7b\"a\": 1\x7d" = some (JsonValue.obj [("a", JsonValue.num "1")]) ∧
    extract_json "Sure! Here: \x7b\"a\": 1\x7d Thanks." =
      some (JsonValue.obj [("a", JsonValue.num "1")]) ∧
    extract_json "not json at all" = none := by
  refine ⟨?_, rfl, rfl, rfl⟩
  intro t
  unfold extract_json extract_json_amended
  rw [amendedSpan_eq_findJsonSpan]

/-- C8: when the provider text yields no extractable JSON, sentiment
analysis returns exactly the fixed neutral payload. -/
theorem C8_sentiment_fallback (env : Env) (tx : String) (bn : Option String) (r : String)
    (hr : generate_text env (sentimentPrompt tx bn) (some sysSentiment) = Except.ok r)
    (he : extract_json r = none) :
    (analyze_sentiment env tx bn).1 = Except.ok (JsonValue.obj
      [("sentiment", JsonValue.str "Neutral"),
       ("score", JsonValue.num "50"),
       ("summary", JsonValue.str "Could not parse detailed analysis."),
       ("key_issues", JsonValue.arr [JsonValue.str "Analysis format error"]),
       ("suggestions", JsonValue.arr
         [JsonValue.str "Please try again with different text."])]) := by
  rcases hq : generate_text_t env (sentimentPrompt tx bn) (some sysSentiment) with ⟨a, tr⟩
  unfold generate_text at hr; rw [hq] at hr; simp only at hr; subst hr
  simp [analyze_sentiment, hq, he, pyFalsyOpt, sentimentFallback]

/-- C8 witness: a Groq-only run whose reply contains no JSON. -/
theorem C8_sentiment_fallback_witness :
    (analyze_sentiment (groqOnlyEnv "not json at all") "great product" none).1 =
      Except.ok (JsonValue.obj
        [("sentiment", JsonValue.str "Neutral"),
         ("score", JsonValue.num "50"),
         ("summary", JsonValue.str "Could not parse detailed analysis."),
         ("key_issues", JsonValue.arr [JsonValue.str "Analysis format error"]),
         ("suggestions", JsonValue.arr
           [JsonValue.str "Please try again with different text."])]) :=
  C8_sentiment_fallback (groqOnlyEnv "not json at all") "great product" none
    "not json at all" rfl rfl

/-- C10: the four structured operations substitute their fixed fallback
payload whenever the extraction result is Python-falsy — not only `none`
but also parsed-but-empty values such as `[]` or `{}`; in particular a
provider reply of exactly `[]` to the tagline operation yields the fixed
fallback tagline. -/
theorem C10_falsy_extraction_fallback :
    (∀ (env : Env) (bn d tn r : String),
      generate_text env (taglinePrompt bn d tn) (some sysTagline) = Except.ok r →
      pyFalsyOpt (extract_json r) = true →
      (generate_tagline env bn d tn).1 = Except.ok (taglineFallback bn)) ∧
    (∀ (env : Env) (pn f ta tn r : String),
      generate_text env (productPrompt pn f ta tn) (some sysProduct) = Except.ok r →
      pyFalsyOpt (extract_json r) = true →
      (generate_product_description env pn f ta tn).1 = Except.ok productFallback) ∧
    (∀ (env : Env) (tx : String) (bn : Option String) (r : String),
      generate_text env (sentimentPrompt tx bn) (some sysSentiment) = Except.ok r →
      pyFalsyOpt (extract_json r) = true →
      (analyze_sentiment env tx bn).1 = Except.ok sentimentFallback) ∧
    (∀ (env : Env) (tl bn : String) (bd : Option String) (r : String),
      generate_text env (taglineAnalysisPrompt tl bn bd) (some sysTaglineAnalysis) =
        Except.ok r →
      pyFalsyOpt (extract_json r) = true →
      (analyze_tagline env tl bn bd).1 = Except.ok taglineAnalysisFallback) ∧
    extract_json "[]" = some (JsonValue.arr []) ∧
    pyFalsy (JsonValue.arr []) = true ∧
    (generate_tagline (groqOnlyEnv "[]") "Acme" "tools" "catchy").1 =
      Except.ok (taglineFallback "Acme") := by
  refine ⟨?_, ?_, ?_, ?_, rfl, rfl, rfl⟩
  · intro env bn d tn r hr hf
    rcases hq : generate_text_t env (taglinePrompt bn d tn) (some sysTagline) with ⟨a, tr⟩
    unfold generate_text at hr; rw [hq] at hr; simp only at hr; subst hr
    simp [generate_tagline, hq, hf]
  · intro env pn f ta tn r hr hf
    rcases hq : generate_text_t env (productPrompt pn f ta tn) (some sysProduct)
      with ⟨a, tr⟩
    unfold generate_text at hr; rw [hq] at hr; simp only at hr; subst hr
    simp [generate_product_description, hq, hf]
  · intro env tx bn r hr hf
    rcases hq : generate_text_t env (sentimentPrompt tx bn) (some sysSentiment)
      with ⟨a, tr⟩
    unfold generate_text at hr; rw [hq] at hr; simp only at hr; subst hr
    simp [analyze_sentiment, hq, hf]
  · intro env tl bn bd r hr hf
    rcases hq : generate_text_t env (taglineAnalysisPrompt tl bn bd)
      (some sysTaglineAnalysis) with ⟨a, tr⟩
    unfold generate_text at hr; rw [hq] at hr; simp only at hr; subst hr
    simp [analyze_tagline, hq, hf]

/-- C10 witness: a parsed-but-empty `{}` reply triggers the tagline
fallback, and a `[]` reply triggers the sentiment fallback. -/
theorem C10_falsy_extraction_fallback_witness :
    (generate_tagline (groqOnlyEnv "\x7b\x7d") "Acme" "tools" "catchy").1 =
      Except.ok (taglineFallback "Acme") ∧
    (analyze_sentiment (groqOnlyEnv "[]") "review text" none).1 =
      Except.ok sentimentFallback :=
  ⟨C10_falsy_extraction_fallback.1 (groqOnlyEnv "\x7b\x7d") "Acme" "tools" "catchy"
     "\x7b\x7d" rfl rfl,
   C10_falsy_extraction_fallback.2.2.1 (groqOnlyEnv "[]") "review text" none "[]" rfl rfl⟩

theorem length_mk (l : List Char) : (String.mk l).length = l.length := rfl

/-- C9: when the Hugging Face backends all fail, the Pollinations keyless
fallback is attempted exactly once, with a pre-encoding prompt of at most
400 characters; if it also fails or returns non-200, the raise carries the
last configured-backend error and no logo file is written. -/
theorem C9_cascade_fallback (env : Env) (d s t e1 e2 e3 e4 : String)
    (hgc : env.groq_client = true) (hhf : env.hf_client = true)
    (ht : (generate_text_t env (conceptPrompt d s) none).1 = Except.ok t)
    (h1 : env.hf "ByteDance/SDXL-Lightning" = Except.error e1)
    (h2 : env.hf "runwayml/stable-diffusion-v1-5" = Except.error e2)
    (h3 : env.hf "segmind/SSD-1B" = Except.error e3)
    (h4 : env.hf "prompthero/openjourney" = Except.error e4)
    (hp : ∀ st img, env.poll = Except.ok (st, img) → st ≠ 200) :
    (generate_logo env d s).1 =
      Except.error ("Logo generation failed: All models failed. Last error: " ++ e4) ∧
    ((generate_logo env d s).2).countP isPollCall = 1 ∧
    (∀ fp url, Event.pollCall fp url ∈ (generate_logo env d s).2 → fp.length ≤ 400) ∧
    ((generate_logo env d s).2).filter isFileWrite = [] := by
  rcases hq : generate_text_t env (conceptPrompt d s) none with ⟨a, tr⟩
  rw [hq] at ht
  simp only at ht
  subst ht
  have hm : tryModels env models_to_try none =
      (none, some e4,
       [Event.hfCall "ByteDance/SDXL-Lightning",
        Event.hfCall "runwayml/stable-diffusion-v1-5",
        Event.hfCall "segmind/SSD-1B",
        Event.hfCall "prompthero/openjourney"]) := by
    simp [tryModels, models_to_try, h1, h2, h3, h4]
  have hpoll : (match env.poll with
      | Except.ok (st, b) => if st = 200 then some b else none
      | Except.error _ => (none : Option Nat)) = none := by
    cases hpe : env.poll with
    | error e => rfl
    | ok p =>
      rcases p with ⟨st, b⟩
      simp [hp st b hpe]
  have hlogo : generate_logo env d s =
      (Except.error ("Logo generation failed: All models failed. Last error: " ++ e4),
       tr ++ [Event.hfCall "ByteDance/SDXL-Lightning",
              Event.hfCall "runwayml/stable-diffusion-v1-5",
              Event.hfCall "segmind/SSD-1B",
              Event.hfCall "prompthero/openjourney"] ++
       [Event.pollCall
          (if ("logo of " ++ d ++ ", " ++
               pyStrip (pyReplace (pyReplace t "Prompt:" "") "\"" "") ++
               ", vector, flattened, minimal, white background, high quality, 4k" ++
               ", vector art, centered, no text").length > 400 then
             String.mk (("logo of " ++ d ++ ", " ++
               pyStrip (pyReplace (pyReplace t "Prompt:" "") "\"" "") ++
               ", vector, flattened, minimal, white background, high quality, 4k" ++
               ", vector art, centered, no text").toList.take 400)
           else ("logo of " ++ d ++ ", " ++
               pyStrip (pyReplace (pyReplace t "Prompt:" "") "\"" "") ++
               ", vector, flattened, minimal, white background, high quality, 4k" ++
               ", vector art, centered, no text"))
          (pollUrl (urlQuote
            (if ("logo of " ++ d ++ ", " ++
                 pyStrip (pyReplace (pyReplace t "Prompt:" "") "\"" "") ++
                 ", vector, flattened, minimal, white background, high quality, 4k" ++
                 ", vector art, centered, no text").length > 400 then
               String.mk (("logo of " ++ d ++ ", " ++
                 pyStrip (pyReplace (pyReplace t "Prompt:" "") "\"" "") ++
                 ", vector, flattened, minimal, white background, high quality, 4k" ++
                 ", vector art, centered, no text").toList.take 400)
             else ("logo of " ++ d ++ ", " ++
                 pyStrip (pyReplace (pyReplace t "Prompt:" "") "\"" "") ++
                 ", vector, flattened, minimal, white background, high quality, 4k" ++
                 ", vector art, centered, no text"))) env.seed)]) := by
    simp only [generate_logo, hgc, hhf, hq, hm, hpoll, if_true, errStr]
  have htr0 := gtt_countP_poll env (conceptPrompt d s) none
  rw [hq] at htr0
  simp only at htr0
  have htrf := gtt_filter_fileWrite env (conceptPrompt d s) none
  rw [hq] at htrf
  simp only at htrf
  refine ⟨by rw [hlogo], ?_, ?_, ?_⟩
  · rw [hlogo]
    simp [List.countP_append, isPollCall, htr0, List.countP_cons]
  · intro fp url hmem
    rw [hlogo] at hmem
    simp only [List.mem_append, List.mem_cons, List.not_mem_nil, or_false] at hmem
    rcases hmem with (hin | hev) | hev
    · have hk := (gtt_trace_kinds env (conceptPrompt d s) none _ (by rw [hq]; exact hin)).1
      simp [isPollCall] at hk
    · rcases hev with h | h | h | h <;> exact absurd h (by simp)
    · simp only [Event.pollCall.injEq] at hev
      obtain ⟨hfp, -⟩ := hev
      subst hfp
      split
      · rw [length_mk, List.length_take]
        exact Nat.min_le_left _ _
      · rename_i hcond
        exact Nat.le_of_not_lt hcond
  · rw [hlogo]
    simp [List.filter_append, isFileWrite, htrf]

/-- C9 witness: the concrete all-backends-down configuration. -/
theorem C9_cascade_fallback_witness :
    (generate_logo cascadeFailEnv "coffee shop" "modern").1 =
      Except.error ("Logo generation failed: All models failed. Last error: " ++
        "model down: prompthero/openjourney") ∧
    ((generate_logo cascadeFailEnv "coffee shop" "modern").2).countP isPollCall = 1 ∧
    (∀ fp url, Event.pollCall fp url ∈ (generate_logo cascadeFailEnv "coffee shop" "modern").2 →
      fp.length ≤ 400) ∧
    ((generate_logo cascadeFailEnv "coffee shop" "modern").2).filter isFileWrite = [] :=
  C9_cascade_fallback cascadeFailEnv "coffee shop" "modern" "minimalist coffee cup, steam"
    "model down: ByteDance/SDXL-Lightning" "model down: runwayml/stable-diffusion-v1-5"
    "model down: segmind/SSD-1B" "model down: prompthero/openjourney"
    rfl rfl rfl rfl rfl rfl rfl (fun _ _ h => Except.noConfusion h)
